import Mathlib

/-
Verification of the Mr-Vibrating command-line argument parsing library
(mr-vibrating.hpp) against its natural-language specification.

Strings are modelled as lists of characters (`Str`), mirroring
std::string.  The heterogeneous tuple of Option<T> descriptors is
modelled as a list of `OptSpec` records (the bound-variable kinds used
by the repository's example program: bool, int, std::string), with the
bound variables themselves carried as a parallel list of `Value`s that
the parse threads through explicitly (reference semantics made
explicit).  The scanning loop of parse_arguments is modelled with
explicit fuel, because the source's `continue` on the "--" token does
not advance the loop index: running out of fuel (`none`) represents
non-termination of the C++ loop.
-/

namespace Vibrating

/- A std::string, modelled as its character list. -/
abbrev Str := List Char

/- The bound-variable kinds exercised by the repository (Option<bool>,
Option<int>, Option<std::string>). -/
inductive OptKind where
  | boolOpt
  | intOpt
  | strOpt
deriving DecidableEq

/- A bound variable's current contents. -/
inductive Value where
  | b (x : Bool)
  | i (x : Int)
  | s (x : Str)
deriving DecidableEq

/- Option<T>: HelpString, LongOpt, ShortOpt, Required, with the kind
standing for the type parameter T.  (`Value` is carried separately.) -/
structure OptSpec where
  kind : OptKind
  helpString : Str
  longOpt : Str
  shortOpt : Char
  required : Bool
deriving DecidableEq

/- Option<T>::ReadsValue: true for every specialization except bool. -/
def OptKind.readsValue : OptKind → Bool
  | .boolOpt => false
  | _ => true

/- std::isspace characters in the default C locale (skipped by strtol). -/
def isSpaceChar (c : Char) : Bool :=
  c = ' ' || c = '\t' || c = '\n' || c = '\x0b' || c = '\x0c' || c = '\r'

/- The numeric value of a character as a digit, if it is alphanumeric. -/
def digitValue (c : Char) : Option Nat :=
  if '0' ≤ c ∧ c ≤ '9' then some (c.toNat - '0'.toNat)
  else if 'a' ≤ c ∧ c ≤ 'z' then some (c.toNat - 'a'.toNat + 10)
  else if 'A' ≤ c ∧ c ≤ 'Z' then some (c.toNat - 'A'.toNat + 10)
  else none

/- Read a maximal run of digits in the given base, accumulating the value;
returns the accumulated value and the number of characters consumed. -/
def readDigits (base : Nat) : Str → Nat → Nat × Nat
  | [], acc => (acc, 0)
  | c :: cs, acc =>
    match digitValue c with
    | some d =>
      if d < base then
        let r := readDigits base cs (acc * base + d)
        (r.1, r.2 + 1)
      else (acc, 0)
    | none => (acc, 0)

def longMax : Int := 2 ^ 63 - 1
def longMin : Int := -(2 ^ 63)

/- strtol saturates at the representable range of long on overflow. -/
def clampLong (v : Int) : Int :=
  if v > longMax then longMax else if v < longMin then longMin else v

/- std::strtol(s, &e, 0): skip whitespace, optional sign, base sensing
("0x"/"0X" hex, leading "0" octal, otherwise decimal).  Returns the
parsed value and the number of characters consumed (the offset of the
end pointer e from the start of the string); if no digits could be
parsed the end pointer is reset to the start (0 consumed, value 0). -/
def strtolModel (s : Str) : Int × Nat :=
  let wsCount := (s.takeWhile isSpaceChar).length
  let afterWs := s.dropWhile isSpaceChar
  let sign : Int := match afterWs with
    | '-' :: _ => -1
    | _ => 1
  let signCount : Nat := match afterWs with
    | '-' :: _ => 1
    | '+' :: _ => 1
    | _ => 0
  let afterSign : Str := match afterWs with
    | '-' :: r => r
    | '+' :: r => r
    | r => r
  match afterSign with
  | '0' :: x :: rest =>
    if x = 'x' ∨ x = 'X' then
      let r := readDigits 16 rest 0
      if r.2 = 0 then
        -- "0x" with no hex digit after it: the subject sequence is just "0"
        (0, wsCount + signCount + 1)
      else (clampLong (sign * r.1), wsCount + signCount + 2 + r.2)
    else
      let r := readDigits 8 ('0' :: x :: rest) 0
      (clampLong (sign * r.1), wsCount + signCount + r.2)
  | rest =>
    let r := readDigits 10 rest 0
    if r.2 = 0 then (0, 0)
    else (clampLong (sign * r.1), wsCount + signCount + r.2)

/- Narrowing conversion from long to int (two's-complement wrap). -/
def wrapInt32 (v : Int) : Int := (v + 2 ^ 31) % 2 ^ 32 - 2 ^ 31

/- from_string<int>: t = std::strtol(s.c_str(), &e, 0); the stored value
is assigned even when the conversion fails, and success is reported
exactly when the end pointer equals the end of the string. -/
def from_string_int (s : Str) : Bool × Value :=
  let r := strtolModel s
  (r.2 == s.length, .i (wrapInt32 r.1))

/- OptionMatch::FillValue for a descriptor of the given kind: converts
the token and yields (success, stored value).  from_string<std::string>
always succeeds and stores the token unchanged.  The boolOpt case is
never invoked, because boolean descriptors have ReadsValue = false. -/
def fillValue : OptKind → Str → Bool × Value
  | .intOpt, s => from_string_int s
  | .strOpt, s => (true, .s s)
  | .boolOpt, _ => (true, .b false)

/- The Matcher's per-descriptor test (find_match, line 142):
(opt.size() == 1 && a.ShortOpt == opt[0]) || a.LongOpt == opt. -/
def optMatches (opt : Str) (a : OptSpec) : Bool :=
  (opt.length == 1 && a.shortOpt == opt.headD (Char.ofNat 0)) || a.longOpt == opt

/- The OptionMatch record (Matched = false is the `none` case). -/
structure OptionMatch where
  readsValue : Bool
  index : Nat
  fillKind : OptKind
deriving DecidableEq

/- find_match: first descriptor in declaration order whose short or long
spelling equals the stripped token. -/
def find_match : List OptSpec → Str → Option OptionMatch
  | [], _ => none
  | a :: rest, opt =>
    if optMatches opt a then some ⟨a.kind.readsValue, 0, a.kind⟩
    else (find_match rest opt).map (fun m => { m with index := m.index + 1 })

/- Token stripping in the scanner's loop body (lines 349-357): after the
"--" marker nothing is an option; a two-character "-X" (X not '-')
yields the short token, "--rest" of length at least 3 yields the long
token; an empty result means the argument is positional. -/
def stripOption (endOfOptionsReached : Bool) (arg : Str) : Str :=
  if endOfOptionsReached then []
  else
    match arg with
    | ['-', c] => if c = '-' then [] else [c]
    | '-' :: '-' :: rest => rest
    | _ => []

/- "Missing required option \"--long\"\n" (or "-X" when LongOpt is empty). -/
def requiredLine (a : OptSpec) : Str :=
  "Missing required option \"".data ++
    (if a.longOpt.isEmpty then ['-', a.shortOpt] else '-' :: '-' :: a.longOpt) ++
    "\"\n".data

/- CheckRequiredOptions: traverse descriptors with their seen-flags in
declaration order; whenever Required holds and the flag is unset, append
one error line and record failure. -/
def checkRequired : List OptSpec → List Bool → Bool × Str
  | [], _ => (false, [])
  | a :: rest, found =>
    let r := checkRequired rest found.tail
    if found.headD false || !a.required then r
    else (true, requiredLine a ++ r.2)

/- The value parse_arguments returns once the scan reaches the end of the
arguments: the accumulated text when the check failed, else "". -/
def finishError (opts : List OptSpec) (found : List Bool) : Str :=
  let r := checkRequired opts found
  if r.1 then r.2 else []

/- The observable outcome of parse_arguments: the returned error string,
the bound variables, the seen-flags, and the positional arguments. -/
structure ParseResult where
  error : Str
  values : List Value
  found : List Bool
  positionals : List Str
deriving DecidableEq

def dashDash : Str := ['-', '-']

/- The while loop of parse_arguments (lines 331-387), with explicit fuel:
`none` means the fuel ran out, i.e. the C++ loop has not terminated
within that many iterations.  Note the faithful modelling of the source
bug at lines 341-344: on "--" the loop sets end_of_options_reached and
executes `continue` WITHOUT advancing i, so the recursive call keeps the
same index i. -/
def parseLoop (opts : List OptSpec) (hasPositional : Bool) (args : List Str) :
    Nat → Nat → List Value → List Bool → List Str → Bool → Option ParseResult
  | 0, _, _, _, _, _ => none
  | fuel + 1, i, values, found, positionals, endReached =>
    match args[i]? with
    | none => some ⟨finishError opts found, values, found, positionals⟩
    | some arg =>
      if arg = dashDash then
        parseLoop opts hasPositional args fuel i values found positionals true
      else
        let opt := stripOption endReached arg
        if opt.isEmpty then
          if hasPositional then
            parseLoop opts hasPositional args fuel (i + 1) values found
              (positionals ++ [arg]) endReached
          else some ⟨"Bare option found!".data, values, found, positionals⟩
        else
          match find_match opts opt with
          | none =>
            some ⟨"Unrecognized option found: ".data ++ opt, values, found, positionals⟩
          | some m =>
            if found.getD m.index false then
              some ⟨"Duplicate option found: ".data ++ opt, values, found, positionals⟩
            else
              let found' := found.set m.index true
              if m.readsValue then
                match args[i + 1]? with
                | none =>
                  some ⟨"No value for option ".data ++ opt, values, found', positionals⟩
                | some v =>
                  let r := fillValue m.fillKind v
                  let values' := values.set m.index r.2
                  if r.1 then
                    parseLoop opts hasPositional args fuel (i + 2) values' found'
                      positionals endReached
                  else
                    some ⟨"Unable to parse value \"".data ++ v ++ "\" for option ".data ++ opt,
                      values', found', positionals⟩
              else
                parseLoop opts hasPositional args fuel (i + 1) values found'
                  positionals endReached

/- Seen-flags all start false (found_options{0}). -/
def initialFound (opts : List OptSpec) : List Bool := opts.map (fun _ => false)

/- parse_arguments: scan from index 1 (index 0 is the program name).
The fuel args.length + 1 is enough for every terminating run, because
every loop iteration other than the "--" case advances i by at least 1;
a `none` result means the C++ loop diverges. -/
def parse_arguments (args : List Str) (opts : List OptSpec) (values : List Value)
    (hasPositional : Bool) : Option ParseResult :=
  parseLoop opts hasPositional args (args.length + 1) 1 values (initialFound opts) [] false

/- The example program's descriptor set (part_000):
bool usage(--usage,-u), bool flag(--flag,-f), int number(--number,-n,required),
string opt(--optional-string,-s,default "default").  The Option<bool>
constructor forces the bound boolean to false. -/
def usageSpec : OptSpec :=
  ⟨.boolOpt, "Display usage string and exit".data, "usage".data, 'u', false⟩

def flagSpec : OptSpec :=
  ⟨.boolOpt, "Set mr_flag to true".data, "flag".data, 'f', false⟩

def numberSpec : OptSpec :=
  ⟨.intOpt, "An required integer parameter".data, "number".data, 'n', true⟩

def optionalStringSpec : OptSpec :=
  ⟨.strOpt, "An optional string".data, "optional-string".data, 's', false⟩

def stdOpts : List OptSpec := [usageSpec, flagSpec, numberSpec, optionalStringSpec]

/- The bound variables at the call: the booleans have been forced to
false by the Option<bool> constructors, optional_string = "default", and
required_int is uninitialized (an arbitrary n0). -/
def stdInit (n0 : Int) : List Value :=
  [.b false, .b false, .i n0, .s "default".data]

/- A descriptor whose long spelling is the single character '-', used to
probe the prefix-interchangeability claim (C10). -/
def dashLongSpec : OptSpec :=
  ⟨.boolOpt, "pathological".data, ['-'], Char.ofNat 0, false⟩

/- Spec-side restatement for claim C7 (the refinement target, written
from the spec's words, to be compared with checkRequired/finishError
from the source): one line per descriptor where Required is true and the
seen-flag is false, in descriptor order, each line naming the option by
its long spelling if non-empty and otherwise by its short spelling. -/
def specMissingLine (a : OptSpec) : Str :=
  "Missing required option \"".data ++
    (if a.longOpt = [] then ['-', a.shortOpt] else "--".data ++ a.longOpt) ++
    "\"\n".data

def specMissingLines (opts : List OptSpec) (found : List Bool) : Str :=
  (((opts.zip found).filter (fun p => p.1.required && !p.2)).map
    (fun p => specMissingLine p.1)).foldr (· ++ ·) []

/- Usage formatting (usage_string, MaxOptionLength, UsagePrinter). -/

/- type_string<T>: the display tag of each supported kind; types without
a specialization (such as bool) display as "unknown". -/
def type_string : OptKind → Str
  | .intOpt => "int".data
  | .strOpt => "string".data
  | .boolOpt => "unknown".data

/- MaxOptionLength's measure of a single descriptor: the long spelling
plus a space-separated type tag for value-reading descriptors, else the
plain long spelling. -/
def maxOptionContribution (a : OptSpec) : Nat :=
  if a.kind.readsValue then a.longOpt.length + 1 + (type_string a.kind).length
  else a.longOpt.length

/- MaxOptionLength over the whole descriptor set (fold starting at 0). -/
def maxOptionLength (opts : List OptSpec) : Nat :=
  opts.foldl (fun m a => max m (maxOptionContribution a)) 0

/- operator<< rendering of a bound value (bool prints as 1/0, though a
boolean descriptor never reaches the default-printing branch). -/
def valueText : Value → Str
  | .b x => if x then ['1'] else ['0']
  | .i x => (toString x).data
  | .s x => x

/- Everything UsagePrinter emits on one descriptor's line before the
help string: two-space indent, "-X" or two spaces, optionally
" --longname", optionally a type tag, then padding spaces computed as
LengthPad + (2 if it has a long spelling else 5) minus the descriptor's
own MaxOptionLength measure. -/
def usageHeader (lengthPad : Nat) (a : OptSpec) : Str :=
  "  ".data ++
    (if a.shortOpt ≠ Char.ofNat 0 then ['-', a.shortOpt] else "  ".data) ++
    (if a.longOpt ≠ [] then " --".data ++ a.longOpt else []) ++
    (if a.kind.readsValue then ' ' :: type_string a.kind else []) ++
    List.replicate (lengthPad + (if a.longOpt ≠ [] then 2 else 5) - maxOptionContribution a) ' '

/- One full descriptor line: header, help string, and for non-required
non-boolean descriptors the "(default: ...)" suffix (quoted for the
string kind). -/
def usageLine (lengthPad : Nat) (a : OptSpec) (v : Value) : Str :=
  usageHeader lengthPad a ++ a.helpString ++
    (if !a.required && a.kind ≠ .boolOpt then
      (if a.kind = .strOpt then " (default: \"".data ++ valueText v ++ "\")".data
       else " (default: ".data ++ valueText v ++ ")".data)
     else []) ++
    "\n".data

def usageLines : List OptSpec → List Value → Nat → Str
  | [], _, _ => []
  | a :: rest, values, pad =>
    usageLine pad a (values.headD (.b false)) ++ usageLines rest values.tail pad

/- usage_string: the header line plus one line per descriptor, padded to
the shared column determined by MaxOptionLength over the whole set. -/
def usage_string (programName : Str) (opts : List OptSpec) (values : List Value)
    (positionalArgumentsEnabled : Bool) (positionalArgumentType : Str) : Str :=
  "Usage: ".data ++ programName ++ " [option]...".data ++
    (if positionalArgumentsEnabled then
      " [--] [".data ++ positionalArgumentType ++ "]...".data
     else []) ++
    "\n".data ++ usageLines opts values (maxOptionLength opts)

/-
Theorems.
-/

/- The two spellings of the missing-option line coincide. -/
theorem requiredLine_eq_specMissingLine (a : OptSpec) :
    requiredLine a = specMissingLine a := by
  cases h : a.longOpt <;> simp [requiredLine, specMissingLine, h]

/- When CheckRequiredOptions reports no failure, it accumulated no text. -/
theorem checkRequired_not_failed :
    ∀ (opts : List OptSpec) (found : List Bool),
      (checkRequired opts found).1 = false → (checkRequired opts found).2 = [] := by
  intro opts
  induction opts with
  | nil => intro found _; rfl
  | cons a rest ih =>
    intro found h
    simp only [checkRequired] at h ⊢
    by_cases hc : (found.headD false || !a.required) = true
    · rw [if_pos hc] at h ⊢
      exact ih found.tail h
    · rw [if_neg hc] at h
      simp at h

/- The text CheckRequiredOptions accumulates is exactly the in-order
concatenation of one line per required-but-unseen descriptor. -/
theorem checkRequired_snd_eq :
    ∀ (opts : List OptSpec) (found : List Bool), found.length = opts.length →
      (checkRequired opts found).2 = specMissingLines opts found := by
  intro opts
  induction opts with
  | nil =>
    intro found h
    rfl
  | cons a rest ih =>
    intro found h
    match found with
    | f :: fs =>
      have hlen : fs.length = rest.length := by simpa using h
      by_cases hreq : a.required <;> cases f <;>
        simp [checkRequired, specMissingLines, hreq, requiredLine_eq_specMissingLine,
          ih fs hlen]

/- When the argument under the cursor is the "--" token, one iteration of
the loop leaves the cursor where it is (the source's `continue` skips the
`++i`), so the loop never terminates no matter how much fuel it gets. -/
theorem parseLoop_stuck (opts : List OptSpec) (hasPositional : Bool) (args : List Str)
    (i : Nat) (h : args[i]? = some dashDash) :
    ∀ (fuel : Nat) (values : List Value) (found : List Bool) (positionals : List Str)
      (endReached : Bool),
      parseLoop opts hasPositional args fuel i values found positionals endReached = none := by
  intro fuel
  induction fuel with
  | zero => intro values found positionals endReached; rfl
  | succ n ih =>
    intro values found positionals endReached
    simp only [parseLoop, h]
    exact ih values found positionals true

/-- Claim C1: parse_arguments is claimed to terminate for every finite
argument list, consuming the "--" terminator exactly once.  The code
violates this: encountering "--" sets end_of_options_reached and then
executes `continue` without advancing the index, so the loop re-reads
the terminator forever.  This theorem shows that on the argument list
["prog", "--"] the scanning loop returns no result for ANY amount of
fuel, and in particular parse_arguments diverges. -/
theorem C1_terminator_never_consumed :
    (∀ (fuel : Nat) (n0 : Int),
      parseLoop stdOpts true ["prog".data, dashDash] fuel 1 (stdInit n0)
        (initialFound stdOpts) [] false = none) ∧
    (∀ n0 : Int,
      parse_arguments ["prog".data, dashDash] stdOpts (stdInit n0) true = none) := by
  refine ⟨fun fuel n0 => ?_, fun n0 => ?_⟩
  · exact parseLoop_stuck stdOpts true _ 1 rfl fuel _ _ _ _
  · exact parseLoop_stuck stdOpts true _ 1 rfl _ _ _ _ _

/-- Claim C1 witness: the divergence instantiated at fuel 5 and initial
integer 0. -/
theorem C1_terminator_never_consumed_witness :
    parseLoop stdOpts true ["prog".data, dashDash] 5 1 (stdInit 0)
      (initialFound stdOpts) [] false = none :=
  C1_terminator_never_consumed.1 5 0

/-- Claim C2: the claim says that matching a boolean descriptor sets its
bound boolean to true, so that after a successful parse a bound boolean
is true iff its flag appeared.  The code violates this: the OptionMatch
built for a non-value-reading descriptor carries no FillValue, and the
scanning loop only sets the seen-flag, never the bound variable (which
the Option<bool> constructor set to false).  On ["prog", "-f", "-n", "5"]
the parse succeeds and the flag descriptor was matched (seen-flag at
index 1 is true), yet mr_flag's bound value is still `false`. -/
theorem C2_bool_flag_never_set_true :
    parse_arguments ["prog".data, "-f".data, "-n".data, "5".data] stdOpts (stdInit 0) true =
      some ⟨[], [.b false, .b false, .i 5, .s "default".data],
        [false, true, true, false], []⟩ := by
  rfl

/-- Claim C3: tokens after "--" are claimed to be appended verbatim, in
order, to the positional sequence.  The code never gets there: the loop
spins forever on the "--" token itself, so on ["prog", "--", "-f"] the
scan returns no result for any fuel and "-f" is never appended. -/
theorem C3_tokens_after_terminator_unreached :
    (∀ (fuel : Nat) (n0 : Int),
      parseLoop stdOpts true ["prog".data, dashDash, "-f".data] fuel 1 (stdInit n0)
        (initialFound stdOpts) [] false = none) ∧
    (∀ n0 : Int,
      parse_arguments ["prog".data, dashDash, "-f".data] stdOpts (stdInit n0) true = none) := by
  refine ⟨fun fuel n0 => ?_, fun n0 => ?_⟩
  · exact parseLoop_stuck stdOpts true _ 1 rfl fuel _ _ _ _
  · exact parseLoop_stuck stdOpts true _ 1 rfl _ _ _ _ _

/-- Claim C3 witness: the divergence instantiated at fuel 7 and initial
integer 0. -/
theorem C3_tokens_after_terminator_unreached_witness :
    parseLoop stdOpts true ["prog".data, dashDash, "-f".data] 7 1 (stdInit 0)
      (initialFound stdOpts) [] false = none :=
  C3_tokens_after_terminator_unreached.1 7 0

/-- Claim C4: with the example descriptor set and arguments
["prog", "-n", "5", "file.txt"] and a positional collector supplied,
parse_arguments returns the empty (success) string, number == 5,
opt == "default", flag == false, and the positionals equal ["file.txt"]
— whatever value the uninitialized required_int held before the call. -/
theorem C4_example_run (n0 : Int) :
    parse_arguments ["prog".data, "-n".data, "5".data, "file.txt".data] stdOpts
      (stdInit n0) true =
      some ⟨[], [.b false, .b false, .i 5, .s "default".data],
        [false, false, true, false], ["file.txt".data]⟩ := by
  rfl

/-- Claim C4 witness: the example run instantiated at initial integer 0. -/
theorem C4_example_run_witness :
    parse_arguments ["prog".data, "-n".data, "5".data, "file.txt".data] stdOpts
      (stdInit 0) true =
      some ⟨[], [.b false, .b false, .i 5, .s "default".data],
        [false, false, true, false], ["file.txt".data]⟩ :=
  C4_example_run 0

/-- Claim C5: whenever the scanner reaches an argument that strips to an
option token matching a descriptor whose seen-flag is already set —
whichever spelling either occurrence used — the parse stops right there
and returns "Duplicate option found: " followed by the second
occurrence's stripped spelling, leaving values, flags and positionals as
they were. -/
theorem C5_duplicate_option_error (opts : List OptSpec) (hasPositional : Bool)
    (args : List Str) (fuel i : Nat) (values : List Value) (found : List Bool)
    (positionals : List Str) (endReached : Bool) (arg opt : Str) (m : OptionMatch)
    (harg : args[i]? = some arg) (hdd : arg ≠ dashDash)
    (hstrip : stripOption endReached arg = opt) (hne : opt.isEmpty = false)
    (hmatch : find_match opts opt = some m)
    (hseen : found.getD m.index false = true) :
    parseLoop opts hasPositional args (fuel + 1) i values found positionals endReached =
      some ⟨"Duplicate option found: ".data ++ opt, values, found, positionals⟩ := by
  simp only [parseLoop, harg, hstrip, hne, hmatch, hseen, if_neg hdd]
  simp

/-- Claim C5 witness: in the run on ["prog", "-n", "1", "--number", "2"]
the cursor reaches index 3 with the number descriptor already seen via
its short spelling; the long spelling "--number" is then reported as the
duplicate. -/
theorem C5_duplicate_option_error_witness :
    parseLoop stdOpts true ["prog".data, "-n".data, "1".data, "--number".data, "2".data]
      2 3 [.b false, .b false, .i 1, .s "default".data] [false, false, true, false]
      [] false =
      some ⟨"Duplicate option found: ".data ++ "number".data,
        [.b false, .b false, .i 1, .s "default".data], [false, false, true, false], []⟩ :=
  C5_duplicate_option_error stdOpts true _ 1 3 _ _ _ false "--number".data "number".data
    ⟨true, 2, .intOpt⟩ rfl (by decide) rfl rfl rfl rfl

/-- Claim C6: the integer Value Converter succeeds exactly when the
numeric parse consumed the entire input string, and on the example
arguments ["prog", "-n", "abc"] parse_arguments returns an error
mentioning both the offending value "abc" and the option name "n". -/
theorem C6_integer_conversion_requires_full_consumption :
    (∀ s : Str, (from_string_int s).1 = true ↔ (strtolModel s).2 = s.length) ∧
    parse_arguments ["prog".data, "-n".data, "abc".data] stdOpts (stdInit 0) true =
      some ⟨"Unable to parse value \"abc\" for option n".data,
        [.b false, .b false, .i 0, .s "default".data], [false, false, true, false], []⟩ := by
  refine ⟨fun s => ?_, rfl⟩
  simp [from_string_int]

/-- Claim C6 witness: the success criterion instantiated at "abc": the
parse consumed 0 of its 3 characters, so the conversion fails. -/
theorem C6_integer_conversion_requires_full_consumption_witness :
    ((from_string_int "abc".data).1 = true ↔ (strtolModel "abc".data).2 = "abc".data.length) ∧
    (from_string_int "abc".data).1 = false :=
  ⟨C6_integer_conversion_requires_full_consumption.1 "abc".data, by decide⟩

/-- Claim C7: after a scan that completes without a scanning error, the
value parse_arguments returns is exactly one line per descriptor with
Required true and seen-flag false, in descriptor order, each line naming
the option by its long spelling if non-empty and otherwise by its short
spelling, and the empty string when no required option is missing
(finishError is the expression the loop returns on reaching the end of
the arguments).  On the example descriptors, ["prog"] yields exactly the
line for "--number". -/
theorem C7_missing_required_report :
    (∀ (opts : List OptSpec) (found : List Bool), found.length = opts.length →
      finishError opts found = specMissingLines opts found) ∧
    parse_arguments ["prog".data] stdOpts (stdInit 0) true =
      some ⟨"Missing required option \"--number\"\n".data, stdInit 0,
        [false, false, false, false], []⟩ := by
  refine ⟨fun opts found h => ?_, rfl⟩
  simp only [finishError]
  cases hf : (checkRequired opts found).1
  · simp only [Bool.false_eq_true, if_false]
    rw [← checkRequired_snd_eq opts found h, checkRequired_not_failed opts found hf]
  · simp only [if_true]
    exact checkRequired_snd_eq opts found h

/-- Claim C7 witness: the report instantiated at the example descriptor
set with no option seen: only the required "--number" line appears. -/
theorem C7_missing_required_report_witness :
    finishError stdOpts [false, false, false, false] =
      specMissingLines stdOpts [false, false, false, false] :=
  C7_missing_required_report.1 stdOpts [false, false, false, false] (by decide)

/- The fold computing MaxOptionLength never drops below its accumulator. -/
theorem le_foldl_max (l : List OptSpec) :
    ∀ acc : Nat, acc ≤ l.foldl (fun m a => max m (maxOptionContribution a)) acc := by
  induction l with
  | nil => intro acc; exact Nat.le_refl acc
  | cons b rest ih =>
    intro acc
    exact Nat.le_trans (Nat.le_max_left acc (maxOptionContribution b)) (ih _)

/- Every descriptor's own measure is bounded by MaxOptionLength of the set. -/
theorem contribution_le_maxOptionLength (opts : List OptSpec) (a : OptSpec) (h : a ∈ opts) :
    maxOptionContribution a ≤ maxOptionLength opts := by
  unfold maxOptionLength
  generalize (0 : Nat) = acc
  induction opts generalizing acc with
  | nil => cases h
  | cons b rest ih =>
    rcases List.mem_cons.mp h with hb | hm
    · subst hb
      exact Nat.le_trans (Nat.le_max_right acc (maxOptionContribution a)) (le_foldl_max rest _)
    · exact ih hm _

/-- Claim C8: on every per-descriptor line of the usage string, the help
text starts at the same column — the shared MaxOptionLength over the set
plus 9 — regardless of the descriptor's own spelling lengths, whether it
has a long spelling, and whether it carries a type tag. -/
theorem C8_usage_help_columns_aligned (opts : List OptSpec) (a : OptSpec) (h : a ∈ opts) :
    (usageHeader (maxOptionLength opts) a).length = maxOptionLength opts + 9 := by
  have hle := contribution_le_maxOptionLength opts a h
  unfold usageHeader
  by_cases hl : a.longOpt = [] <;> by_cases hr : a.kind.readsValue = true <;>
    simp [maxOptionContribution, hl, hr, List.length_append, List.length_replicate,
      apply_ite List.length] at hle ⊢ <;>
    omega

/-- Claim C8 witness: the flag descriptor's help text in the example set
starts at column MaxOptionLength + 9. -/
theorem C8_usage_help_columns_aligned_witness :
    (usageHeader (maxOptionLength stdOpts) flagSpec).length = maxOptionLength stdOpts + 9 :=
  C8_usage_help_columns_aligned stdOpts flagSpec (by decide)

/-- Claim C9: converting the empty string with the integer Value
Converter succeeds and stores 0: strtol parses no digits, leaves the end
pointer at the start of the string, which IS the end of the empty
string, so the full-consumption check passes. -/
theorem C9_empty_string_converts_to_zero :
    fillValue .intOpt [] = (true, .i 0) ∧ from_string_int [] = (true, .i 0) := by
  decide

/-- Claim C10 counterexample: the claim quantifies over EVERY descriptor
with a one-character long spelling x, asserting the token "-x" is
stripped and matched by that LongOpt.  For the descriptor whose long
spelling is "-", the token "-x" is "--", which the scanner treats as the
end-of-options terminator, not as an option: stripping does not yield
["-"], so the claim as stated is false at this input. -/
theorem C10_dash_long_spelling_counterexample :
    dashLongSpec.longOpt = ['-'] ∧ ('-' :: dashLongSpec.longOpt) = dashDash ∧
      ¬(stripOption false ('-' :: dashLongSpec.longOpt) = dashLongSpec.longOpt ∧
        optMatches dashLongSpec.longOpt dashLongSpec = true) := by
  decide

/-- Claim C10 amended: the two prefix forms are interchangeable, with the
one exception the counterexample forces — for every descriptor with
short spelling c, the token "--c" is not the terminator, strips to "c"
and matches that descriptor's ShortOpt test; and for every descriptor
with one-character long spelling x OTHER THAN '-', the token "-x" is not
the terminator, strips to "x" and matches that descriptor's LongOpt
test. -/
theorem C10_prefixes_interchangeable :
    (∀ (a : OptSpec) (c : Char), a.shortOpt = c →
      ('-' :: '-' :: [c]) ≠ dashDash ∧
        stripOption false ('-' :: '-' :: [c]) = [c] ∧ optMatches [c] a = true) ∧
    (∀ (a : OptSpec) (x : Char), a.longOpt = [x] → x ≠ '-' →
      ['-', x] ≠ dashDash ∧
        stripOption false ['-', x] = [x] ∧ optMatches [x] a = true) := by
  constructor
  · intro a c hc
    subst hc
    refine ⟨by simp [dashDash], rfl, ?_⟩
    simp [optMatches]
  · intro a x hx hne
    refine ⟨?_, ?_, ?_⟩
    · simp [dashDash, hne]
    · simp [stripOption, hne]
    · simp [optMatches, hx]

/-- Claim C10 witness: the usage descriptor is matched through "--u" by
its short spelling, and a descriptor with long spelling "z" is matched
through "-z" by its long spelling. -/
theorem C10_prefixes_interchangeable_witness :
    (('-' :: '-' :: ['u']) ≠ dashDash ∧
      stripOption false ('-' :: '-' :: ['u']) = ['u'] ∧ optMatches ['u'] usageSpec = true) ∧
    (['-', 'z'] ≠ dashDash ∧
      stripOption false ['-', 'z'] = ['z'] ∧
        optMatches ['z'] ⟨.boolOpt, [], ['z'], 'q', false⟩ = true) :=
  ⟨C10_prefixes_interchangeable.1 usageSpec 'u' rfl,
    C10_prefixes_interchangeable.2 ⟨.boolOpt, [], ['z'], 'q', false⟩ 'z' rfl (by decide)⟩

end Vibrating
